import Mathlib

/-!
Shallow embedding of `django/bossingest/ingest_manager.py` (class
`IngestManager`) from the boss repository, together with the pieces of
its data model needed to settle the frozen claims.

Modelling conventions:
* Python non-negative integers are `Nat`; Python `range(a, b, s)` with a
  positive step is `pyRange a b s`; `int(x / s)` on non-negative ints is
  Nat division (float rounding of Python true division is not modelled).
* Raised exceptions are values of `PyExc`; a method that can raise
  returns `Except`.  `BossError(msg, code)` is `PyExc.bossError msg code`
  and is a subclass of `Exception`, so an `except Exception` clause
  catches it.
* Remote collaborators (queues, credentials, the tile index and bucket,
  the Django ORM, the serializer) are oracles recorded in environment
  structures: each call either succeeds or raises the exception the
  oracle holds.
* The key encoder `BossBackend.encode_chunk_key` / `encode_tile_key`
  (package `ingest.core.backend`, an external collaborator) is modelled
  as the identity on its argument tuple: a key is the tuple of arguments
  it was built from, which is exactly the injective-encoder reading the
  claims stipulate.
-/

/-- Modelled from the spec: the error-code enumeration of
`bosscore.error.ErrorCodes` (that module is not under `src/`), restricted
to the codes `ingest_manager.py` uses. -/
inductive ErrorCodes where
  | UNABLE_TO_VALIDATE
  | RESOURCE_NOT_FOUND
  | OBJECT_NOT_FOUND
  | SERIALIZATION_ERROR
  | BOSS_SYSTEM_ERROR
deriving DecidableEq, Repr

/-- Python exceptions as they matter to `ingest_manager.py`:
`BossError(message, error_code)` (repository exception type, a subclass
of `Exception`), Django's `DoesNotExist`, `jsonschema.ValidationError`,
and any other exception, carrying its `str`. -/
inductive PyExc where
  | bossError (msg : String) (code : ErrorCodes)
  | doesNotExist (msg : String)
  | validationError (msg : String)
  | generic (msg : String)
deriving DecidableEq, Repr

/-- The string `"{}".format(e)` would produce for an exception. -/
def PyExc.str : PyExc → String
  | .bossError m _ => m
  | .doesNotExist m => m
  | .validationError m => m
  | .generic m => m

/-- True exactly for `BossError` values: an `except BossError` clause
catches the exception iff this holds. -/
def PyExc.isBossError : PyExc → Bool
  | .bossError _ _ => true
  | _ => false

/-- Module-level constant `CONNECTER = '&'` of `ingest_manager.py`. -/
def CONNECTER : String := "&"

/-- The persisted `IngestJob` Django row, with the fields
`ingest_manager.py` reads and writes (the serializer data of
`create_ingest_job` plus `id`, `status` and the two queue references).
`status` values as the source uses them: 0 = Created (initial value,
modelled from the spec since `bossingest/models.py` is not under
`src/`), 1 = Active, 3 = Deleted.  The queue references are `Option`
because they are absent until provisioning sets them. -/
structure IngestJob where
  id : Nat
  creator : String
  collection : String
  experiment : String
  channel_layer : String
  config_data : String
  resolution : Nat
  x_start : Nat
  x_stop : Nat
  y_start : Nat
  y_stop : Nat
  z_start : Nat
  z_stop : Nat
  t_start : Nat
  t_stop : Nat
  tile_size_x : Nat
  tile_size_y : Nat
  tile_size_z : Nat
  tile_size_t : Nat
  upload_queue : Option String
  ingest_queue : Option String
  status : Nat
deriving DecidableEq, Repr

/-- Python `range(start, stop, step)` as a list, for a positive step:
the elements `start + k * step` that are `< stop`.  (The claims all
assume positive steps; Python raises on `step = 0`, which no claim
exercises.) -/
def pyRange (start stop step : Nat) : List Nat :=
  (List.range ((stop - start + step - 1) / step)).map (fun k => start + k * step)

/-- The argument tuple of `BossBackend.encode_tile_key`, standing for the
tile key itself (injective-encoder model).  Note the arguments the
source passes: the tile index within the chunk, but no chunk_z. -/
structure TileKey where
  project : List String
  resolution : Nat
  chunk_x : Nat
  chunk_y : Nat
  tile : Nat
  time_step : Nat
deriving DecidableEq, Repr

/-- The argument tuple of `BossBackend.encode_chunk_key`, standing for
the chunk key itself (injective-encoder model). -/
structure ChunkKey where
  num_of_tiles : Nat
  project : List String
  resolution : Nat
  chunk_x : Nat
  chunk_y : Nat
  chunk_z : Nat
  time_step : Nat
deriving DecidableEq, Repr

/-- A value of the flat task-message dictionary. -/
inductive MsgVal where
  | natVal (n : Nat)
  | chunkVal (k : ChunkKey)
  | tileVal (k : TileKey)
  | optStrVal (s : Option String)
deriving DecidableEq, Repr

/-- A task message: the flat key/value dictionary `json.dumps` receives,
kept as an association list in insertion order. -/
abbrev TaskMsg := List (String × MsgVal)

/-- `IngestManager.create_upload_task_message` (staticmethod): builds the
flat message dictionary `msg` field by field, in source order, and
serializes it. -/
def create_upload_task_message (job_id : Nat) (chunk_key : ChunkKey) (tile_key : TileKey)
    (upload_queue_arn ingest_queue_arn : Option String) : TaskMsg :=
  [(("job_id"), MsgVal.natVal job_id),
   (("chunk_key"), MsgVal.chunkVal chunk_key),
   (("tile_key"), MsgVal.tileVal tile_key),
   (("upload_queue_arn"), MsgVal.optStrVal upload_queue_arn),
   (("ingest_queue_arn"), MsgVal.optStrVal ingest_queue_arn)]

/-- The `num_of_tiles` computation of `generate_upload_tasks`:
`16` when `z_stop - z >= 16`, else `z_stop - z`. -/
def num_of_tiles (ingest_job : IngestJob) (z : Nat) : Nat :=
  if 16 ≤ ingest_job.z_stop - z then 16 else ingest_job.z_stop - z

/-- The loop body of `generate_upload_tasks` at one `(time_step, z, y, x)`
position: the chunk indices, the chunk key, and the task message sent for
each `tile in range(0, num_of_tiles)`. -/
def chunkAt (ingest_job : IngestJob) (project_info : List String)
    (time_step z y x : Nat) : ChunkKey × List TaskMsg :=
  let chunk_x := x / ingest_job.tile_size_x
  let chunk_y := y / ingest_job.tile_size_y
  let chunk_z := z / 16
  let n := num_of_tiles ingest_job z
  let chunk_key : ChunkKey :=
    ⟨n, project_info, ingest_job.resolution, chunk_x, chunk_y, chunk_z, time_step⟩
  (chunk_key,
   (List.range n).map (fun tile =>
     create_upload_task_message ingest_job.id chunk_key
       ⟨project_info, ingest_job.resolution, chunk_x, chunk_y, tile, time_step⟩
       ingest_job.upload_queue ingest_job.ingest_queue))

/-- The `(time_step, z, y, x)` positions the nested loops of
`generate_upload_tasks` visit, in iteration order: `time_step` over
`range(t_start, t_stop, 1)`, `z` over `range(z_start, z_stop, 16)`,
`y` over `range(y_start, y_stop, tile_size_y)`, `x` over
`range(x_start, x_stop, tile_size_x)`. -/
def positions (ingest_job : IngestJob) : List (Nat × Nat × Nat × Nat) :=
  (pyRange ingest_job.t_start ingest_job.t_stop 1).flatMap (fun time_step =>
    (pyRange ingest_job.z_start ingest_job.z_stop 16).flatMap (fun z =>
      (pyRange ingest_job.y_start ingest_job.y_stop ingest_job.tile_size_y).flatMap (fun y =>
        (pyRange ingest_job.x_start ingest_job.x_stop ingest_job.tile_size_x).map (fun x =>
          (time_step, z, y, x)))))

/-- One chunk (key plus its task messages) per loop position, in
iteration order: the chunk-level view of `generate_upload_tasks`. -/
def emittedChunks (ingest_job : IngestJob) (project_info : List String) :
    List (ChunkKey × List TaskMsg) :=
  (positions ingest_job).map (fun p => chunkAt ingest_job project_info p.1 p.2.1 p.2.2.1 p.2.2.2)

/-- All task messages `generate_upload_tasks` sends for a job, in send
order. -/
def uploadTasks (ingest_job : IngestJob) (project_info : List String) : List TaskMsg :=
  (emittedChunks ingest_job project_info).flatMap (fun c => c.2)

/-- Nat ceiling division `ceil(a / b)` (for `b > 0`), used by the
spec-side enumeration below. -/
def ceilDiv (a b : Nat) : Nat := (a + b - 1) / b

/-- Definition written from the spec text cited by C4 (§4.2 steps 1-7),
for comparison with the embedding of the source loop: nested enumeration
in order t (step 1), z (step 16), y (step tile_size_y), x (step
tile_size_x) over the half-open extent ranges; chunk indices by integer
division; `tiles_in_chunk = min(16, z_stop - z)`; one chunk key per
position and one task per tile index. -/
def spec_partition (ingest_job : IngestJob) (project_info : List String) :
    List (ChunkKey × List TaskMsg) :=
  (List.range' ingest_job.t_start (ceilDiv (ingest_job.t_stop - ingest_job.t_start) 1) 1).flatMap
    (fun time_step =>
      (List.range' ingest_job.z_start
          (ceilDiv (ingest_job.z_stop - ingest_job.z_start) 16) 16).flatMap (fun z =>
        (List.range' ingest_job.y_start
            (ceilDiv (ingest_job.y_stop - ingest_job.y_start) ingest_job.tile_size_y)
            ingest_job.tile_size_y).flatMap (fun y =>
          (List.range' ingest_job.x_start
              (ceilDiv (ingest_job.x_stop - ingest_job.x_start) ingest_job.tile_size_x)
              ingest_job.tile_size_x).map (fun x =>
            let chunk_x := x / ingest_job.tile_size_x
            let chunk_y := y / ingest_job.tile_size_y
            let chunk_z := z / 16
            let tiles_in_chunk := min 16 (ingest_job.z_stop - z)
            let ck : ChunkKey :=
              ⟨tiles_in_chunk, project_info, ingest_job.resolution, chunk_x, chunk_y, chunk_z,
                time_step⟩
            (ck, (List.range tiles_in_chunk).map (fun tile =>
              create_upload_task_message ingest_job.id ck
                ⟨project_info, ingest_job.resolution, chunk_x, chunk_y, tile, time_step⟩
                ingest_job.upload_queue ingest_job.ingest_queue))))))

/-- Splitting a character list at each `'&'` (helper for `splitAmp`). -/
def splitCharList : List Char → List (List Char)
  | [] => [[]]
  | c :: cs =>
    let r := splitCharList cs
    if c = ('&') then [] :: r
    else
      match r with
      | [] => [[c]]
      | h :: t => (c :: h) :: t

/-- Python `s.split('&')`, as the source applies it to the lookup key. -/
def splitAmp (s : String) : List String := (splitCharList s.data).map String.mk

/-- The mutable fields of an `IngestManager` instance that
`generate_upload_tasks` reads (`self.job`). -/
structure MgrState where
  job : Option IngestJob

/-- `IngestManager.generate_upload_tasks(self, job_id=None)`.

Arguments beyond the source signature model the collaborators:
`db` is the `IngestJob.objects` table; `lookup` is
`LookUpKey.get_lookup_key(bosskey).lookup_key` (that function lives in
`bosscore/lookup.py`, which is not under `src/` — modelled from the
spec: ResourceBinder resolution failure raises a ResourceNotFoundError);
`send_exc` is an oracle for a failure while publishing (the partially
published prefix before such a failure is not tracked, no claim depends
on it).

The result pairs the raise/return outcome with the list of task
messages sent.  Python-truthiness note: the source's `elif job_id:` is
false for `job_id = 0`, which then falls through to `self.job`. -/
def generate_upload_tasks (mgr : MgrState) (db : Nat → Option IngestJob)
    (lookup : String → Option String) (send_exc : Option PyExc) (job_id : Option Nat) :
    Except PyExc Unit × List TaskMsg :=
  let run : IngestJob → Except PyExc Unit × List TaskMsg := fun ingest_job =>
    let bosskey := ingest_job.collection ++ CONNECTER ++ ingest_job.experiment ++ CONNECTER ++
      ingest_job.channel_layer
    match lookup bosskey with
    | none =>
      (.error (.bossError ("Invalid request. Unable to find the lookup key") .RESOURCE_NOT_FOUND),
       [])
    | some lookup_key =>
      match splitAmp lookup_key with
      | [col_id, exp_id, ch_id] =>
        match send_exc with
        | some e => (.error e, [])
        | none => (.ok (), uploadTasks ingest_job [col_id, exp_id, ch_id])
      | _ => (.error (.generic ("ValueError: unpacking the lookup key failed")), [])
  match job_id, mgr.job with
  | none, none =>
    (.error (.bossError
      ("Unable to generate upload tasks for the ingest service. Please specify a ingest job")
      .UNABLE_TO_VALIDATE), [])
  | none, some ingest_job => run ingest_job
  | some jid, mj =>
    if jid ≠ 0 then
      match db jid with
      | some ingest_job => run ingest_job
      | none =>
        (.error (.bossError
          (("Ingest job with id ") ++ toString jid ++ (" does not exist"))
          .RESOURCE_NOT_FOUND), [])
    else
      match mj with
      | some ingest_job => run ingest_job
      | none => (.error (.generic ("AttributeError: NoneType has no attribute collection")), [])

/-- The `database` and `ingest_job` sections of a validated config
document, plus `raw` for the retained `json.dumps(config_data)` blob. -/
structure ConfigData where
  collection : String
  experiment : String
  channel_layer : String
  raw : String
  x_start : Nat
  x_stop : Nat
  y_start : Nat
  y_stop : Nat
  z_start : Nat
  z_stop : Nat
  t_start : Nat
  t_stop : Nat
  tile_size_x : Nat
  tile_size_y : Nat
  tile_size_z : Nat
  tile_size_t : Nat

/-- Environment of one `setup_ingest` call: its inputs plus one oracle
per collaborator call, in the order the source makes them. -/
structure SetupEnv where
  creator : String
  config : ConfigData
  schema_exc : Option PyExc
  collection_found : Bool
  experiment_found : Bool
  channel_found : Bool
  base_resolution : Nat
  serializer_valid : Bool
  new_job_id : Nat
  upload_queue_exc : Option PyExc
  upload_queue_url : String
  ingest_queue_exc : Option PyExc
  ingest_queue_url : String
  lookup : String → Option String
  send_exc : Option PyExc
  tile_bucket_exc : Option PyExc
  creds_exc : Option PyExc
  save_exc : Option PyExc

/-- `IngestManager.validate_config_file`: schema validation either
succeeds (returns `True`) or raises; a `jsonschema.ValidationError` and
any other exception are both wrapped as
`BossError(..., UNABLE_TO_VALIDATE)` with distinct messages. -/
def validate_config_file (exc : Option PyExc) : Except PyExc Bool :=
  match exc with
  | some (.validationError m) =>
    .error (.bossError (("Schema validation failed! ") ++ m) .UNABLE_TO_VALIDATE)
  | some e =>
    .error (.bossError ((" Could not validate the schema file.") ++ e.str) .UNABLE_TO_VALIDATE)
  | none => .ok true

/-- `IngestManager.validate_properties`: resolves collection, experiment
and channel/layer, raising `BossError(..., RESOURCE_NOT_FOUND)` on the
first miss (the formatted attribute is still `None` at that point),
otherwise returns `True`. -/
def validate_properties (env : SetupEnv) : Except PyExc Bool :=
  if env.collection_found = false then
    .error (.bossError ("Collection None not found") .RESOURCE_NOT_FOUND)
  else if env.experiment_found = false then
    .error (.bossError ("Experiment None not found") .RESOURCE_NOT_FOUND)
  else if env.channel_found = false then
    .error (.bossError ("Channel or Layer None not found") .RESOURCE_NOT_FOUND)
  else .ok true

/-- `IngestManager.create_ingest_job`: serializes the job row from the
config and resolved resolution; on serializer failure raises
`BossError(..., SERIALIZATION_ERROR)`, otherwise persists and returns
the row (initial status Created = 0, modelled from the spec since
`bossingest/models.py` is not under `src/`). -/
def create_ingest_job (env : SetupEnv) : Except PyExc IngestJob :=
  if env.serializer_valid then
    .ok { id := env.new_job_id
          creator := env.creator
          collection := env.config.collection
          experiment := env.config.experiment
          channel_layer := env.config.channel_layer
          config_data := env.config.raw
          resolution := env.base_resolution
          x_start := env.config.x_start, x_stop := env.config.x_stop
          y_start := env.config.y_start, y_stop := env.config.y_stop
          z_start := env.config.z_start, z_stop := env.config.z_stop
          t_start := env.config.t_start, t_stop := env.config.t_stop
          tile_size_x := env.config.tile_size_x, tile_size_y := env.config.tile_size_y
          tile_size_z := env.config.tile_size_z, tile_size_t := env.config.tile_size_t
          upload_queue := none
          ingest_queue := none
          status := 0 }
  else .error (.bossError ("serializer errors") .SERIALIZATION_ERROR)

/-- The `try` block of `setup_ingest`, step by step in source order;
`.ok` carries the final `self.job` (which is `None` only on the dead
branch where a validator returned without raising and without `True`). -/
def setup_body (env : SetupEnv) : Except PyExc (Option IngestJob) :=
  match validate_config_file env.schema_exc with
  | .error e => .error e
  | .ok valid_schema =>
  match validate_properties env with
  | .error e => .error e
  | .ok valid_prop =>
  if valid_schema = true ∧ valid_prop = true then
    match create_ingest_job env with
    | .error e => .error e
    | .ok job0 =>
    match env.upload_queue_exc with
    | some e => .error e
    | none =>
    let job1 := { job0 with upload_queue := some env.upload_queue_url }
    match env.ingest_queue_exc with
    | some e => .error e
    | none =>
    let job2 := { job1 with ingest_queue := some env.ingest_queue_url }
    match (generate_upload_tasks ⟨some job2⟩ (fun _ => none) env.lookup env.send_exc none).1 with
    | .error e => .error e
    | .ok _ =>
    match env.tile_bucket_exc with
    | some e => .error e
    | none =>
    match env.creds_exc with
    | some e => .error e
    | none =>
    match env.save_exc with
    | some e => .error e
    | none => .ok (some { job2 with status := 1 })
  else .ok none

/-- The exception handlers of `setup_ingest`: `except BossError` re-raises
the same message and code; `except Exception` wraps anything else as
`BossError(..., BOSS_SYSTEM_ERROR)`. -/
def wrapSetupExc (e : PyExc) : String × ErrorCodes :=
  match e with
  | .bossError m c => (m, c)
  | e => (("Unable to create the upload and ingest queue.") ++ e.str, .BOSS_SYSTEM_ERROR)

/-- `IngestManager.setup_ingest(self, creator, config_data)`: runs the
`try` block and applies the two exception handlers; the raised error is
a `(message, error_code)` pair. -/
def setup_ingest (env : SetupEnv) : Except (String × ErrorCodes) (Option IngestJob) :=
  match setup_body env with
  | .ok j => .ok j
  | .error e => .error (wrapSetupExc e)

/-- `IngestManager.delete_tiles`: enumerates and deletes the job's chunk
index entries and tile objects (remote work, an oracle here); any
exception is wrapped as `BossError(..., BOSS_SYSTEM_ERROR)` with the
source's message (sic "deleteing"). -/
def delete_tiles (exc : Option PyExc) (ingest_job : IngestJob) : Except PyExc Unit :=
  match exc with
  | some e =>
    .error (.bossError
      (("Exception while deleteing tiles for the ingest job ") ++ toString ingest_job.id ++
        (". ") ++ e.str) .BOSS_SYSTEM_ERROR)
  | none => .ok ()

/-- Environment of one `delete_ingest_job` call: the `IngestJob.objects`
table and one oracle per collaborator call, in the order the source
makes them. -/
structure DeleteEnv where
  jobs : Nat → Option IngestJob
  upload_queue_exc : Option PyExc
  ingest_queue_exc : Option PyExc
  tiles_exc : Option PyExc
  save_exc : Option PyExc
  creds_exc : Option PyExc

/-- Persisting one row: the table after `job.save()`. -/
def updateJob (db : Nat → Option IngestJob) (id : Nat) (j : IngestJob) :
    Nat → Option IngestJob :=
  fun k => if k = id then some j else db k

/-- The `try` block of `delete_ingest_job`, step by step in source
order: load the job, delete the upload then ingest queue, delete the
tiles, set `status = 3` (Deleted) and save, then remove the ingest
credentials.  The second component is the persisted table at the moment
the block returns or raises. -/
def delete_body (env : DeleteEnv) (ingest_job_id : Nat) :
    Except PyExc Nat × (Nat → Option IngestJob) :=
  match env.jobs ingest_job_id with
  | none => (.error (.doesNotExist ("IngestJob matching query does not exist.")), env.jobs)
  | some ingest_job =>
    match env.upload_queue_exc with
    | some e => (.error e, env.jobs)
    | none =>
    match env.ingest_queue_exc with
    | some e => (.error e, env.jobs)
    | none =>
    match delete_tiles env.tiles_exc ingest_job with
    | .error e => (.error e, env.jobs)
    | .ok _ =>
    match env.save_exc with
    | some e => (.error e, env.jobs)
    | none =>
    let db2 := updateJob env.jobs ingest_job_id { ingest_job with status := 3 }
    match env.creds_exc with
    | some e => (.error e, db2)
    | none => (.ok ingest_job_id, db2)

/-- `IngestManager.delete_ingest_job(self, ingest_job_id)`.  The source
lists `except Exception` *before* `except IngestJob.DoesNotExist`;
since every exception (`DoesNotExist` and `BossError` included) matches
the first clause, the second clause is unreachable and every failure is
re-raised as `BossError("Unable to delete the upload queue."+str(e),
BOSS_SYSTEM_ERROR)`. -/
def delete_ingest_job (env : DeleteEnv) (ingest_job_id : Nat) :
    Except (String × ErrorCodes) Nat × (Nat → Option IngestJob) :=
  match delete_body env ingest_job_id with
  | (.ok r, db) => (.ok r, db)
  | (.error e, db) =>
    (.error ((("Unable to delete the upload queue.") ++ e.str), .BOSS_SYSTEM_ERROR), db)

/-- Scenario A job (C1): extent x[0,64) y[0,64) z[0,32) t[0,1),
tile_size x=64, y=64, z=16, t=1. -/
def jobA : IngestJob :=
  { id := 1, creator := "u", collection := "col", experiment := "exp", channel_layer := "chan"
    config_data := "cfg", resolution := 0
    x_start := 0, x_stop := 64, y_start := 0, y_stop := 64
    z_start := 0, z_stop := 32, t_start := 0, t_stop := 1
    tile_size_x := 64, tile_size_y := 64, tile_size_z := 16, tile_size_t := 1
    upload_queue := some ("uq"), ingest_queue := some ("iq"), status := 0 }

/-- Project info for the concrete scenarios: resolved collection,
experiment and channel ids. -/
def piA : List String := ["1", "2", "3"]

/-- Scenario B job (C5): extent z[0,20), chunk depth 16; the other axes
are one tile wide so each z-chunk appears exactly once. -/
def jobB : IngestJob :=
  { id := 2, creator := "u", collection := "col", experiment := "exp", channel_layer := "chan"
    config_data := "cfg", resolution := 0
    x_start := 0, x_stop := 1, y_start := 0, y_stop := 1
    z_start := 0, z_stop := 20, t_start := 0, t_stop := 1
    tile_size_x := 1, tile_size_y := 1, tile_size_z := 16, tile_size_t := 1
    upload_queue := some ("uq"), ingest_queue := some ("iq"), status := 0 }

/-- C6 counterexample job: empty x extent (`x_start = x_stop = 0`) but a
non-empty z extent z[0,16). -/
def jobEmptyX : IngestJob :=
  { id := 3, creator := "u", collection := "col", experiment := "exp", channel_layer := "chan"
    config_data := "cfg", resolution := 0
    x_start := 0, x_stop := 0, y_start := 0, y_stop := 1
    z_start := 0, z_stop := 16, t_start := 0, t_stop := 1
    tile_size_x := 1, tile_size_y := 1, tile_size_z := 16, tile_size_t := 1
    upload_queue := some ("uq"), ingest_queue := some ("iq"), status := 0 }

/-- An Active job persisted under id 7, used by the deletion scenarios. -/
def jobDel : IngestJob :=
  { id := 7, creator := "u", collection := "col", experiment := "exp", channel_layer := "chan"
    config_data := "cfg", resolution := 0
    x_start := 0, x_stop := 64, y_start := 0, y_stop := 64
    z_start := 0, z_stop := 32, t_start := 0, t_stop := 1
    tile_size_x := 64, tile_size_y := 64, tile_size_z := 16, tile_size_t := 1
    upload_queue := some ("uq"), ingest_queue := some ("iq"), status := 1 }

/-- A table holding exactly `jobDel` under id 7. -/
def jobsDel : Nat → Option IngestJob := fun k => if k = 7 then some jobDel else none

/-- Deletion environment for C3: no job exists, every collaborator
would succeed. -/
def envDelMissing : DeleteEnv :=
  { jobs := fun _ => none
    upload_queue_exc := none, ingest_queue_exc := none, tiles_exc := none
    save_exc := none, creds_exc := none }

/-- Deletion environment for the C2 counterexample: everything succeeds
except `remove_ingest_credentials`, which raises after the status save. -/
def envDelCreds : DeleteEnv :=
  { jobs := jobsDel
    upload_queue_exc := none, ingest_queue_exc := none, tiles_exc := none
    save_exc := none, creds_exc := some (.generic ("boom")) }

/-- Deletion environment for the C2 amended witness: the upload-queue
deletion fails, credentials removal would succeed. -/
def envDelUpload : DeleteEnv :=
  { jobs := jobsDel
    upload_queue_exc := some (.generic ("net down")), ingest_queue_exc := none
    tiles_exc := none, save_exc := none, creds_exc := none }

/-- Config document matching `jobA`. -/
def configA : ConfigData :=
  { collection := "col", experiment := "exp", channel_layer := "chan", raw := "cfg"
    x_start := 0, x_stop := 64, y_start := 0, y_stop := 64
    z_start := 0, z_stop := 32, t_start := 0, t_stop := 1
    tile_size_x := 64, tile_size_y := 64, tile_size_z := 16, tile_size_t := 1 }

/-- Setup environment in which every step succeeds. -/
def envSetupOK : SetupEnv :=
  { creator := "u", config := configA
    schema_exc := none
    collection_found := true, experiment_found := true, channel_found := true
    base_resolution := 0, serializer_valid := true, new_job_id := 1
    upload_queue_exc := none, upload_queue_url := "uq"
    ingest_queue_exc := none, ingest_queue_url := "iq"
    lookup := fun _ => some ("1&2&3")
    send_exc := none, tile_bucket_exc := none, creds_exc := none, save_exc := none }

/-- Setup environment for the C7 counterexample: every step succeeds
until the resource lookup inside `generate_upload_tasks` (step 5) raises
a `BossError(..., RESOURCE_NOT_FOUND)`. -/
def envSetupLookupFail : SetupEnv :=
  { envSetupOK with lookup := fun _ => none }

/-- Setup environment for the C7 amended-theorem witness: the
upload-queue creation (step 4, after the job row exists) raises a
non-BossError exception. -/
def envSetupUploadFail : SetupEnv :=
  { envSetupOK with upload_queue_exc := some (.generic ("sqs down")) }

/-- The job `setup_ingest envSetupOK` returns: `jobA` marked Active. -/
def jobOK : IngestJob := { jobA with status := 1 }

/-- The first task message of Scenario A (chunk (0,0,0), tile 0). -/
def msgA0 : TaskMsg :=
  create_upload_task_message 1 ⟨16, piA, 0, 0, 0, 0, 0⟩ ⟨piA, 0, 0, 0, 0, 0⟩
    (some ("uq")) (some ("iq"))

/-- The bosskey `setup_ingest` builds for its freshly created job:
`collection & experiment & channel_layer` from the config. -/
def setupBosskey (env : SetupEnv) : String :=
  env.config.collection ++ CONNECTER ++ env.config.experiment ++ CONNECTER ++
    env.config.channel_layer

/-- The conditions under which `setup_ingest` reaches step 3 and the
`IngestJob` row is created and persisted: both validators pass and the
serializer accepts the row. -/
def jobRowCreated (env : SetupEnv) : Prop :=
  env.schema_exc = none ∧ env.collection_found = true ∧ env.experiment_found = true ∧
    env.channel_found = true ∧ env.serializer_valid = true

/-- An oracle that does not raise a `BossError` (it either succeeds or
raises some other exception). -/
def nonBossExc : Option PyExc → Prop
  | some e => e.isBossError = false
  | none => True

/- ------------------------------------------------------------------ -/
/- Theorems.                                                          -/
/- ------------------------------------------------------------------ -/

/-- `List.range'` written as a map over `List.range`. -/
theorem range'_eq_map (n s st : Nat) :
    List.range' s n st = (List.range n).map (fun k => s + k * st) := by
  induction n generalizing s with
  | zero => rfl
  | succ m ih =>
    rw [List.range'_succ, ih (s + st), List.range_succ_eq_map]
    simp only [List.map_cons, List.map_map, Nat.zero_mul, Nat.add_zero]
    congr 1
    apply List.map_congr_left
    intro k _
    simp only [Function.comp, Nat.succ_eq_add_one]
    ring

/-- `pyRange` is a `List.range'` of ceiling-division length. -/
theorem pyRange_eq_range' (s e st : Nat) :
    pyRange s e st = List.range' s (ceilDiv (e - s) st) st := by
  rw [pyRange, ceilDiv, range'_eq_map]

/-- Membership in a `pyRange`. -/
theorem mem_pyRange {a s e st : Nat} :
    a ∈ pyRange s e st ↔ ∃ k, k < (e - s + st - 1) / st ∧ s + k * st = a := by
  simp [pyRange, List.mem_map, List.mem_range]

/-- A positive-step range over a non-empty interval contains its start. -/
theorem start_mem_pyRange {s e st : Nat} (h : s < e) (hst : 0 < st) :
    s ∈ pyRange s e st := by
  have hlen : 1 ≤ (e - s + st - 1) / st := (Nat.one_le_div_iff hst).mpr (by omega)
  exact mem_pyRange.mpr ⟨0, by omega, by simp⟩

/-- The tile count the source computes per chunk equals
`min 16 (z_stop - z)`. -/
theorem num_of_tiles_eq_min (ingest_job : IngestJob) (z : Nat) :
    num_of_tiles ingest_job z = min 16 (ingest_job.z_stop - z) := by
  unfold num_of_tiles
  split <;> omega

/-- Claim C1 (counterexample): for the Scenario A job, the 32 emitted
task messages exist, but their tile_key values are not pairwise
distinct — the tile-key argument tuple omits chunk_z, so with any
encoder (injective or not) the two z-chunks receive identical tile
keys. -/
theorem scenarioA_tile_keys_not_distinct :
    (uploadTasks jobA piA).length = 32 ∧
    ¬ ((uploadTasks jobA piA).map (fun m => m.lookup ("tile_key"))).Nodup := by
  exact ⟨by decide, by decide⟩

/-- Claim C1 (amended): the Scenario A job yields exactly 2 chunks, at
z-positions 0 and 16 (chunk_z 0 and 1), with 16 tiles each, hence 32
TileTasks in total; the tile keys are pairwise distinct within each
chunk, but the two chunks carry the same 16 tile-key argument tuples,
so only 16 distinct tile_key values occur overall. -/
theorem scenarioA_chunks_tasks_and_key_reuse :
    (positions jobA).map (fun p => p.2.1) = [0, 16] ∧
    (emittedChunks jobA piA).map (fun c => (c.1.chunk_z, c.2.length)) = [(0, 16), (1, 16)] ∧
    (uploadTasks jobA piA).length = 32 ∧
    (emittedChunks jobA piA).map
      (fun c => (c.2.map (fun m => m.lookup ("tile_key"))).dedup.length) = [16, 16] ∧
    ((uploadTasks jobA piA).map (fun m => m.lookup ("tile_key"))).dedup.length = 16 := by
  exact ⟨by decide, by decide, by decide, by decide, by decide⟩

/-- Claim C3: deleting a job id that does not exist raises the *generic*
`BossError(..., BOSS_SYSTEM_ERROR)` — the `except IngestJob.DoesNotExist`
clause that would raise `OBJECT_NOT_FOUND` is listed after
`except Exception` and is unreachable. -/
theorem delete_missing_job_raises_generic_system_error :
    (delete_ingest_job envDelMissing 5).1 =
      .error (("Unable to delete the upload queue.IngestJob matching query does not exist."),
        ErrorCodes.BOSS_SYSTEM_ERROR) := by
  rfl

/-- Claim C2 (counterexample): with every cleanup step succeeding except
`remove_ingest_credentials`, `delete_ingest_job` raises, yet the
persisted job is already marked Deleted (status 3) — the status save is
not the last state mutation attempted. -/
theorem delete_marks_deleted_despite_failed_cleanup :
    (delete_ingest_job envDelCreds 7).1 =
      .error (("Unable to delete the upload queue.boom"), ErrorCodes.BOSS_SYSTEM_ERROR) ∧
    (delete_ingest_job envDelCreds 7).2 7 = some { jobDel with status := 3 } := by
  exact ⟨rfl, rfl⟩

/-- Claim C5: every chunk `generate_upload_tasks` emits at z-position
`z` carries `min(16, z_stop - z)` tiles; in particular, for the
Scenario B extent z[0,20) the chunks sit at z = 0 with 16 tiles and
z = 16 with 4 tiles. -/
theorem tiles_per_chunk_min_16 :
    (∀ (ingest_job : IngestJob) (project_info : List String) (t z y x : Nat),
      (t, z, y, x) ∈ positions ingest_job →
      (chunkAt ingest_job project_info t z y x).2.length =
        min 16 (ingest_job.z_stop - z)) ∧
    (positions jobB).map
      (fun p => (p.2.1, (chunkAt jobB piA p.1 p.2.1 p.2.2.1 p.2.2.2).2.length)) =
      [(0, 16), (16, 4)] := by
  constructor
  · intro ingest_job project_info t z y x _
    simp [chunkAt, List.length_map, List.length_range, num_of_tiles_eq_min]
  · decide

/-- Claim C5 witness: the boundary chunk of Scenario B, at z = 16, has
`min 16 (20 - 16) = 4` tiles. -/
theorem tiles_per_chunk_min_16_witness :
    (chunkAt jobB piA 0 16 0 0).2.length = min 16 (jobB.z_stop - 16) :=
  tiles_per_chunk_min_16.1 jobB piA 0 16 0 0 (by decide)

/-- Claim C6 (counterexample): for a job whose x extent is empty
(`x_start = x_stop`) but whose z extent spans one chunk, no chunk is
emitted at all, so the number of distinct chunk_z values is 0 while
`ceil((z_stop - z_start) / 16) = 1`. -/
theorem chunk_count_fails_on_empty_x_extent :
    jobEmptyX.z_start ≤ jobEmptyX.z_stop ∧
    ((emittedChunks jobEmptyX piA).map (fun c => c.1.chunk_z)).toFinset.card = 0 ∧
    ceilDiv (jobEmptyX.z_stop - jobEmptyX.z_start) 16 = 1 ∧
    ((emittedChunks jobEmptyX piA).map (fun c => c.1.chunk_z)).toFinset.card ≠
      ceilDiv (jobEmptyX.z_stop - jobEmptyX.z_start) 16 := by
  exact ⟨by decide, by decide, by decide, by decide⟩

/-- Claim C7 (counterexample): with every step up to and including the
queue provisioning succeeding, a resource-lookup failure inside
`generate_upload_tasks` (step 5, after the job row exists) surfaces as
`RESOURCE_NOT_FOUND`, not wrapped as `BOSS_SYSTEM_ERROR`: the
`except BossError` clause re-raises the original code. -/
theorem setup_boss_error_not_wrapped_as_system_error :
    setup_ingest envSetupLookupFail =
      .error (("Invalid request. Unable to find the lookup key"),
        ErrorCodes.RESOURCE_NOT_FOUND) ∧
    ErrorCodes.RESOURCE_NOT_FOUND ≠ ErrorCodes.BOSS_SYSTEM_ERROR := by
  exact ⟨rfl, by decide⟩

/-- Claim C10: calling `generate_upload_tasks` with `job_id = None` on a
manager whose `self.job` is `None` raises
`BossError(..., UNABLE_TO_VALIDATE)` and sends no task message (the
method performs no write before this check, so no state changes). -/
theorem generate_upload_tasks_requires_job (mgr : MgrState)
    (db : Nat → Option IngestJob) (lookup : String → Option String)
    (send_exc : Option PyExc) (h : mgr.job = none) :
    generate_upload_tasks mgr db lookup send_exc none =
      (.error (.bossError
        ("Unable to generate upload tasks for the ingest service. Please specify a ingest job")
        ErrorCodes.UNABLE_TO_VALIDATE), []) := by
  obtain ⟨mj⟩ := mgr
  have h' : mj = none := h
  subst h'
  rfl

/-- Claim C10 witness: the empty manager state with empty collaborators. -/
theorem generate_upload_tasks_requires_job_witness :
    generate_upload_tasks ⟨none⟩ (fun _ => none) (fun _ => none) none none =
      (.error (.bossError
        ("Unable to generate upload tasks for the ingest service. Please specify a ingest job")
        ErrorCodes.UNABLE_TO_VALIDATE), []) :=
  generate_upload_tasks_requires_job ⟨none⟩ (fun _ => none) (fun _ => none) none rfl

/-- Claim C8: every task message `generate_upload_tasks` publishes is
`create_upload_task_message` applied to the job's id, that chunk key,
that tile key, and the job's two queue references — a flat document
with exactly the five fields `job_id`, `chunk_key`, `tile_key`,
`upload_queue_arn`, `ingest_queue_arn`, each equal to the corresponding
argument. -/
theorem published_message_is_flat_five_field_doc (ingest_job : IngestJob)
    (project_info : List String) (m : TaskMsg)
    (hm : m ∈ uploadTasks ingest_job project_info) :
    ∃ ck tk, m = create_upload_task_message ingest_job.id ck tk ingest_job.upload_queue
        ingest_job.ingest_queue ∧
      m.map Prod.fst =
        [("job_id"), ("chunk_key"), ("tile_key"), ("upload_queue_arn"), ("ingest_queue_arn")] ∧
      m.lookup ("job_id") = some (MsgVal.natVal ingest_job.id) ∧
      m.lookup ("chunk_key") = some (MsgVal.chunkVal ck) ∧
      m.lookup ("tile_key") = some (MsgVal.tileVal tk) ∧
      m.lookup ("upload_queue_arn") = some (MsgVal.optStrVal ingest_job.upload_queue) ∧
      m.lookup ("ingest_queue_arn") = some (MsgVal.optStrVal ingest_job.ingest_queue) := by
  rcases List.mem_flatMap.mp hm with ⟨c, hc, hmc⟩
  rcases List.mem_map.mp hc with ⟨p, _, hcp⟩
  subst hcp
  simp only [chunkAt] at hmc
  rcases List.mem_map.mp hmc with ⟨tile, _, hmt⟩
  subst hmt
  exact ⟨_, _, rfl, rfl, rfl, rfl, rfl, rfl, rfl⟩

/-- Claim C8 witness: the first Scenario A message. -/
theorem published_message_is_flat_five_field_doc_witness :
    ∃ ck tk, msgA0 = create_upload_task_message jobA.id ck tk jobA.upload_queue
        jobA.ingest_queue ∧
      msgA0.map Prod.fst =
        [("job_id"), ("chunk_key"), ("tile_key"), ("upload_queue_arn"), ("ingest_queue_arn")] ∧
      msgA0.lookup ("job_id") = some (MsgVal.natVal jobA.id) ∧
      msgA0.lookup ("chunk_key") = some (MsgVal.chunkVal ck) ∧
      msgA0.lookup ("tile_key") = some (MsgVal.tileVal tk) ∧
      msgA0.lookup ("upload_queue_arn") = some (MsgVal.optStrVal jobA.upload_queue) ∧
      msgA0.lookup ("ingest_queue_arn") = some (MsgVal.optStrVal jobA.ingest_queue) :=
  published_message_is_flat_five_field_doc jobA piA msgA0 (by decide)

/-- Claim C4: for any job with ordered extents and positive tile sizes,
`generate_upload_tasks` enumerates exactly as the spec states — nested
order t (step 1), z (step 16), y (step tile_size_y), x (step
tile_size_x) over the half-open ranges, chunk indices by integer
division, one chunk key per position and one task per tile index in the
chunk. -/
theorem generate_matches_spec_enumeration (ingest_job : IngestJob) (project_info : List String)
    (hx : ingest_job.x_start ≤ ingest_job.x_stop) (hy : ingest_job.y_start ≤ ingest_job.y_stop)
    (hz : ingest_job.z_start ≤ ingest_job.z_stop) (ht : ingest_job.t_start ≤ ingest_job.t_stop)
    (htx : 0 < ingest_job.tile_size_x) (hty : 0 < ingest_job.tile_size_y) :
    emittedChunks ingest_job project_info = spec_partition ingest_job project_info := by
  unfold emittedChunks positions spec_partition
  simp only [List.map_flatMap, List.map_map, pyRange_eq_range']
  congr 1

/-- Claim C4 witness: the Scenario A job. -/
theorem generate_matches_spec_enumeration_witness :
    emittedChunks jobA piA = spec_partition jobA piA :=
  generate_matches_spec_enumeration jobA piA (by decide) (by decide) (by decide) (by decide)
    (by decide) (by decide)

/-- Claim C6 (amended): for a job with `z_start ≤ z_stop` whose t, y and
x extents are non-empty and whose tile sizes are positive, the number of
distinct chunk_z values among the emitted chunks equals
`ceil((z_stop - z_start) / 16)`, including when `z_start` is not a
multiple of 16.  (When the t, y or x range is empty no chunk is emitted
at all — the counterexample above.) -/
theorem distinct_chunk_z_count (ingest_job : IngestJob) (project_info : List String)
    (hz : ingest_job.z_start ≤ ingest_job.z_stop)
    (ht : ingest_job.t_start < ingest_job.t_stop)
    (hy : ingest_job.y_start < ingest_job.y_stop)
    (hx : ingest_job.x_start < ingest_job.x_stop)
    (hty : 0 < ingest_job.tile_size_y) (htx : 0 < ingest_job.tile_size_x) :
    ((emittedChunks ingest_job project_info).map (fun c => c.1.chunk_z)).toFinset.card =
      ceilDiv (ingest_job.z_stop - ingest_job.z_start) 16 := by
  have hmem : ∀ a : Nat,
      (a ∈ (emittedChunks ingest_job project_info).map (fun c => c.1.chunk_z)) ↔
        a ∈ (pyRange ingest_job.z_start ingest_job.z_stop 16).map (fun z => z / 16) := by
    intro a
    constructor
    · intro ha
      rcases List.mem_map.mp ha with ⟨c, hc, rfl⟩
      rcases List.mem_map.mp hc with ⟨p, hp, rfl⟩
      rcases List.mem_flatMap.mp hp with ⟨t, _, hp2⟩
      rcases List.mem_flatMap.mp hp2 with ⟨z, hzmem, hp3⟩
      rcases List.mem_flatMap.mp hp3 with ⟨y, _, hp4⟩
      rcases List.mem_map.mp hp4 with ⟨x, _, rfl⟩
      exact List.mem_map.mpr ⟨z, hzmem, rfl⟩
    · intro ha
      rcases List.mem_map.mp ha with ⟨z, hzmem, rfl⟩
      refine List.mem_map.mpr ⟨chunkAt ingest_job project_info ingest_job.t_start z
        ingest_job.y_start ingest_job.x_start, ?_, rfl⟩
      refine List.mem_map.mpr
        ⟨(ingest_job.t_start, z, ingest_job.y_start, ingest_job.x_start), ?_, rfl⟩
      refine List.mem_flatMap.mpr
        ⟨ingest_job.t_start, start_mem_pyRange ht (by norm_num), ?_⟩
      refine List.mem_flatMap.mpr ⟨z, hzmem, ?_⟩
      refine List.mem_flatMap.mpr ⟨ingest_job.y_start, start_mem_pyRange hy hty, ?_⟩
      exact List.mem_map.mpr ⟨ingest_job.x_start, start_mem_pyRange hx htx, rfl⟩
  have hset : ((emittedChunks ingest_job project_info).map (fun c => c.1.chunk_z)).toFinset =
      ((pyRange ingest_job.z_start ingest_job.z_stop 16).map (fun z => z / 16)).toFinset := by
    ext a
    simp only [List.mem_toFinset]
    exact hmem a
  rw [hset]
  have hmap : (pyRange ingest_job.z_start ingest_job.z_stop 16).map (fun z => z / 16) =
      (List.range ((ingest_job.z_stop - ingest_job.z_start + 16 - 1) / 16)).map
        (fun k => ingest_job.z_start / 16 + k) := by
    unfold pyRange
    rw [List.map_map]
    apply List.map_congr_left
    intro k _
    simp only [Function.comp]
    rw [Nat.add_mul_div_right _ _ (by norm_num : (0:Nat) < 16)]
  rw [hmap,
    List.toFinset_card_of_nodup
      (List.Nodup.map (fun a b h2 => Nat.add_left_cancel h2) (List.nodup_range _)),
    List.length_map, List.length_range]
  rfl

/-- Claim C6 witness: for the Scenario A job, the 2 chunks have 2
distinct chunk_z values, and `ceil((32 - 0) / 16) = 2`. -/
theorem distinct_chunk_z_count_witness :
    ((emittedChunks jobA piA).map (fun c => c.1.chunk_z)).toFinset.card =
      ceilDiv (jobA.z_stop - jobA.z_start) 16 :=
  distinct_chunk_z_count jobA piA (by decide) (by decide) (by decide) (by decide)
    (by decide) (by decide)

/-- Claim C2 (amended): the Deleted transition is attempted after queue
deletion and tile purge but *before* credential removal; so whenever
`delete_ingest_job` raises and the credential-removal step itself did
not raise, the persisted job table is unchanged — the job has not been
marked Deleted.  (A credential-removal failure, by contrast, leaves the
job already marked Deleted: the counterexample above.) -/
theorem delete_error_before_creds_leaves_table_unchanged (env : DeleteEnv)
    (ingest_job_id : Nat) (e : String × ErrorCodes) (hc : env.creds_exc = none)
    (h : (delete_ingest_job env ingest_job_id).1 = .error e) :
    (delete_ingest_job env ingest_job_id).2 = env.jobs := by
  cases hj : env.jobs ingest_job_id with
  | none => simp [delete_ingest_job, delete_body, hj]
  | some job =>
    cases hu : env.upload_queue_exc with
    | some e1 => simp [delete_ingest_job, delete_body, hj, hu]
    | none =>
      cases hi : env.ingest_queue_exc with
      | some e1 => simp [delete_ingest_job, delete_body, hj, hu, hi]
      | none =>
        cases ht2 : env.tiles_exc with
        | some e1 => simp [delete_ingest_job, delete_body, delete_tiles, hj, hu, hi, ht2]
        | none =>
          cases hs : env.save_exc with
          | some e1 =>
            simp [delete_ingest_job, delete_body, delete_tiles, hj, hu, hi, ht2, hs]
          | none =>
            exfalso
            simp [delete_ingest_job, delete_body, delete_tiles, hj, hu, hi, ht2, hs, hc] at h

/-- Claim C2 amended-theorem witness: a failing upload-queue deletion
raises and leaves the table exactly as it was. -/
theorem delete_error_before_creds_leaves_table_unchanged_witness :
    (delete_ingest_job envDelUpload 7).2 = envDelUpload.jobs :=
  delete_error_before_creds_leaves_table_unchanged envDelUpload 7
    (("Unable to delete the upload queue.net down"), ErrorCodes.BOSS_SYSTEM_ERROR) rfl rfl

/-- A raised `setup_ingest` error is the handler-wrapping of the `try`
block's exception. -/
theorem setup_error_wrap (env : SetupEnv) (p : String × ErrorCodes)
    (h : setup_ingest env = .error p) :
    ∃ e, setup_body env = .error e ∧ p = wrapSetupExc e := by
  cases hb : setup_body env with
  | ok j => simp [setup_ingest, hb] at h
  | error e =>
    refine ⟨e, rfl, ?_⟩
    simp [setup_ingest, hb] at h
    exact h.symm

/-- Wrapping a non-BossError exception always yields the generic
system-error code. -/
theorem wrapSetupExc_nonboss (e : PyExc) (h : e.isBossError = false) :
    (wrapSetupExc e).2 = ErrorCodes.BOSS_SYSTEM_ERROR := by
  cases e with
  | bossError m c => simp [PyExc.isBossError] at h
  | doesNotExist m => rfl
  | validationError m => rfl
  | generic m => rfl

/-- If the resource lookup succeeds and the publish oracle is not a
`BossError`, then any exception `generate_upload_tasks` raises for a
manager holding a job is a non-BossError exception. -/
theorem run_error_nonboss (job : IngestJob) (lookup : String → Option String)
    (send_exc : Option PyExc) (s : String) (e : PyExc)
    (hlkv : lookup (job.collection ++ CONNECTER ++ job.experiment ++ CONNECTER ++
      job.channel_layer) = some s)
    (hse : nonBossExc send_exc)
    (h : (generate_upload_tasks ⟨some job⟩ (fun _ => none) lookup send_exc none).1 =
      .error e) :
    e.isBossError = false := by
  simp only [generate_upload_tasks, hlkv] at h
  cases hsp : splitAmp s with
  | nil =>
    simp only [hsp, Except.error.injEq] at h
    subst h
    rfl
  | cons a l =>
    cases l with
    | nil =>
      simp only [hsp, Except.error.injEq] at h
      subst h
      rfl
    | cons b l2 =>
      cases l2 with
      | nil =>
        simp only [hsp, Except.error.injEq] at h
        subst h
        rfl
      | cons c l3 =>
        cases l3 with
        | nil =>
          cases hse2 : send_exc with
          | some e1 =>
            rw [hse2] at hse
            simp only [hsp, hse2, Except.error.injEq] at h
            subst h
            simpa [nonBossExc] using hse
          | none =>
            simp [hsp, hse2] at h
        | cons d l4 =>
          simp only [hsp, Except.error.injEq] at h
          subst h
          rfl

/-- If the job row was created and every later collaborator oracle is
either successful or raises a non-BossError exception (and the resource
lookup succeeds), then any exception escaping the `try` block of
`setup_ingest` is a non-BossError exception. -/
theorem setup_body_error_nonboss (env : SetupEnv)
    (hcr : jobRowCreated env)
    (hlk : (env.lookup (setupBosskey env)).isSome = true)
    (h1 : nonBossExc env.upload_queue_exc) (h2 : nonBossExc env.ingest_queue_exc)
    (h3 : nonBossExc env.send_exc) (h4 : nonBossExc env.tile_bucket_exc)
    (h5 : nonBossExc env.creds_exc) (h6 : nonBossExc env.save_exc)
    (e : PyExc) (h : setup_body env = .error e) : e.isBossError = false := by
  obtain ⟨hs, hcf, hef, hchf, hsv⟩ := hcr
  obtain ⟨s, hlkv⟩ := Option.isSome_iff_exists.mp hlk
  simp only [setupBosskey] at hlkv
  simp [setup_body, validate_config_file, validate_properties, create_ingest_job,
    hs, hcf, hef, hchf, hsv] at h
  cases hu : env.upload_queue_exc with
  | some e1 =>
    rw [hu] at h1
    simp only [hu, Except.error.injEq] at h
    subst h
    simpa [nonBossExc] using h1
  | none =>
    simp only [hu] at h
    cases hi : env.ingest_queue_exc with
    | some e1 =>
      rw [hi] at h2
      simp only [hi, Except.error.injEq] at h
      subst h
      simpa [nonBossExc] using h2
    | none =>
      simp only [hi] at h
      split at h
      case h_1 e1 heq =>
        simp only [Except.error.injEq] at h
        subst h
        exact run_error_nonboss _ env.lookup env.send_exc s e1 hlkv h3 heq
      case h_2 u heq =>
        cases hb2 : env.tile_bucket_exc with
        | some e1 =>
          rw [hb2] at h4
          simp only [hb2, Except.error.injEq] at h
          subst h
          simpa [nonBossExc] using h4
        | none =>
          simp only [hb2] at h
          cases hc2 : env.creds_exc with
          | some e1 =>
            rw [hc2] at h5
            simp only [hc2, Except.error.injEq] at h
            subst h
            simpa [nonBossExc] using h5
          | none =>
            simp only [hc2] at h
            cases hs2 : env.save_exc with
            | some e1 =>
              rw [hs2] at h6
              simp only [hs2, Except.error.injEq] at h
              subst h
              simpa [nonBossExc] using h6
            | none =>
              simp [hs2] at h

/-- Claim C7 (amended): after the `IngestJob` row has been created
(steps 4-7), any *non-BossError* exception is wrapped as
`BossError(..., BOSS_SYSTEM_ERROR)` and re-raised; a `BossError` raised
in those steps is re-raised with its original error code instead — in
particular the resource-lookup failure inside `generate_upload_tasks`
(step 5) surfaces as `RESOURCE_NOT_FOUND`. -/
theorem setup_post_create_error_codes :
    (∀ (env : SetupEnv) (p : String × ErrorCodes), jobRowCreated env →
      (env.lookup (setupBosskey env)).isSome = true →
      nonBossExc env.upload_queue_exc → nonBossExc env.ingest_queue_exc →
      nonBossExc env.send_exc → nonBossExc env.tile_bucket_exc →
      nonBossExc env.creds_exc → nonBossExc env.save_exc →
      setup_ingest env = .error p → p.2 = ErrorCodes.BOSS_SYSTEM_ERROR) ∧
    (∀ env : SetupEnv, jobRowCreated env →
      env.upload_queue_exc = none → env.ingest_queue_exc = none →
      env.lookup (setupBosskey env) = none →
      setup_ingest env =
        .error (("Invalid request. Unable to find the lookup key"),
          ErrorCodes.RESOURCE_NOT_FOUND)) := by
  constructor
  · intro env p hcr hlk h1 h2 h3 h4 h5 h6 h
    rcases setup_error_wrap env p h with ⟨e, hb, rfl⟩
    exact wrapSetupExc_nonboss e
      (setup_body_error_nonboss env hcr hlk h1 h2 h3 h4 h5 h6 e hb)
  · intro env hcr hu hi hlk
    obtain ⟨hs, hcf, hef, hchf, hsv⟩ := hcr
    simp only [setupBosskey] at hlk
    simp [setup_ingest, setup_body, validate_config_file, validate_properties,
      create_ingest_job, generate_upload_tasks, wrapSetupExc, hs, hcf, hef, hchf, hsv,
      hu, hi, hlk]

/-- Claim C7 amended-theorem witness: a non-BossError queue-creation
failure after the row exists is wrapped with `BOSS_SYSTEM_ERROR` (first
conjunct), while the lookup `BossError` keeps `RESOURCE_NOT_FOUND`
(second conjunct). -/
theorem setup_post_create_error_codes_witness :
    ((("Unable to create the upload and ingest queue.sqs down"),
        ErrorCodes.BOSS_SYSTEM_ERROR) : String × ErrorCodes).2 =
      ErrorCodes.BOSS_SYSTEM_ERROR ∧
    setup_ingest envSetupLookupFail =
      .error (("Invalid request. Unable to find the lookup key"),
        ErrorCodes.RESOURCE_NOT_FOUND) :=
  ⟨setup_post_create_error_codes.1 envSetupUploadFail
      (("Unable to create the upload and ingest queue.sqs down"),
        ErrorCodes.BOSS_SYSTEM_ERROR)
      ⟨rfl, rfl, rfl, rfl, rfl⟩ rfl rfl trivial trivial trivial trivial trivial rfl,
   setup_post_create_error_codes.2 envSetupLookupFail ⟨rfl, rfl, rfl, rfl, rfl⟩
     rfl rfl rfl⟩

/-- Claim C9: whenever `setup_ingest` returns without raising, the
returned job exists (is not `None`), its status is Active (1), and both
queue references have been set — the validators return `True` or raise,
so the success path always runs to completion. -/
theorem setup_success_returns_active_job_with_queues (env : SetupEnv)
    (oj : Option IngestJob) (h : setup_ingest env = .ok oj) :
    ∃ j, oj = some j ∧ j.status = 1 ∧ j.upload_queue = some env.upload_queue_url ∧
      j.ingest_queue = some env.ingest_queue_url := by
  cases hb : setup_body env with
  | error e => simp [setup_ingest, hb] at h
  | ok oj2 =>
    have hoj : oj = oj2 := by
      simp [setup_ingest, hb] at h
      exact h.symm
    subst hoj
    have hs : env.schema_exc = none := by
      cases hq : env.schema_exc with
      | none => rfl
      | some e1 => cases e1 <;> simp [setup_body, validate_config_file, hq] at hb
    have hcf : env.collection_found = true := by
      cases hq : env.collection_found with
      | true => rfl
      | false =>
        simp [setup_body, validate_config_file, validate_properties, hs, hq] at hb
    have hef : env.experiment_found = true := by
      cases hq : env.experiment_found with
      | true => rfl
      | false =>
        simp [setup_body, validate_config_file, validate_properties, hs, hcf, hq] at hb
    have hchf : env.channel_found = true := by
      cases hq : env.channel_found with
      | true => rfl
      | false =>
        simp [setup_body, validate_config_file, validate_properties, hs, hcf, hef, hq] at hb
    have hsv : env.serializer_valid = true := by
      cases hq : env.serializer_valid with
      | true => rfl
      | false =>
        simp [setup_body, validate_config_file, validate_properties, create_ingest_job,
          hs, hcf, hef, hchf, hq] at hb
    have hu : env.upload_queue_exc = none := by
      cases hq : env.upload_queue_exc with
      | none => rfl
      | some e1 =>
        simp [setup_body, validate_config_file, validate_properties, create_ingest_job,
          hs, hcf, hef, hchf, hsv, hq] at hb
    have hi : env.ingest_queue_exc = none := by
      cases hq : env.ingest_queue_exc with
      | none => rfl
      | some e1 =>
        simp [setup_body, validate_config_file, validate_properties, create_ingest_job,
          hs, hcf, hef, hchf, hsv, hu, hq] at hb
    simp [setup_body, validate_config_file, validate_properties, create_ingest_job,
      hs, hcf, hef, hchf, hsv, hu, hi] at hb
    split at hb
    case h_1 e1 heq => simp at hb
    case h_2 u heq =>
      cases hbk : env.tile_bucket_exc with
      | some e1 => simp [hbk] at hb
      | none =>
        simp only [hbk] at hb
        cases hcx : env.creds_exc with
        | some e1 => simp [hcx] at hb
        | none =>
          simp only [hcx] at hb
          cases hsx : env.save_exc with
          | some e1 => simp [hsx] at hb
          | none =>
            simp only [hsx, Except.ok.injEq] at hb
            subst hb
            exact ⟨_, rfl, rfl, rfl, rfl⟩

/-- Claim C9 witness: the all-success environment returns `jobA` marked
Active with both queues set. -/
theorem setup_success_returns_active_job_with_queues_witness :
    ∃ j, (some jobOK : Option IngestJob) = some j ∧ j.status = 1 ∧
      j.upload_queue = some envSetupOK.upload_queue_url ∧
      j.ingest_queue = some envSetupOK.ingest_queue_url :=
  setup_success_returns_active_job_with_queues envSetupOK (some jobOK) rfl
